import Mathlib

/-!
# myUSBdrive.c : a USB bulk-transfer passthrough driver

Shallow embedding of `src/myUSBdrive.c`.

* The driver's three globals (`connected_device`, `class`, `bulk_buf`) form the
  record `Driver`; every entry point takes the record and returns the updated one.
* Kernel services the driver calls (`usb_bulk_msg`, `raw_copy_to_user`,
  `raw_copy_from_user`, minor allocation inside `usb_register_dev`) are fields of
  an environment record `Env`, so every theorem quantifies over all behaviours of
  the kernel.  Each entry point also returns the list of kernel calls it made.
* Machine integers are `Nat` / `Int` with explicit wrap-around conversions
  (LP64: `size_t` is 64 bit unsigned, `ssize_t` 64 bit signed, `int` 32 bit signed).
* `printk` / `dev_alert` calls are logging only and are left out.
-/

namespace MyUSBdrive

/-! ## Machine integers -/

/-- Conversion of a signed value to `size_t` (64 bit, wraps modulo 2^64). -/
def to_size_t (i : Int) : Nat := (i % 2 ^ 64).toNat

/-- Conversion of a `size_t` value to `ssize_t` (64 bit two's complement). -/
def to_ssize_t (n : Nat) : Int :=
  if n % 2 ^ 64 < 2 ^ 63 then ((n % 2 ^ 64 : Nat) : Int) else ((n % 2 ^ 64 : Nat) : Int) - 2 ^ 64

/-- Conversion of a `size_t` value to `int` (32 bit two's complement). -/
def to_int (n : Nat) : Int :=
  if n % 2 ^ 32 < 2 ^ 31 then ((n % 2 ^ 32 : Nat) : Int) else ((n % 2 ^ 32 : Nat) : Int) - 2 ^ 32

/-! ## Constants of the source (lines 7-10) -/

/-- Line 7, `#define MIN(a,b) (((a) <= (b)) ? (a) : (b))`.  At each use in the source one
operand is a `size_t` and the other an `int`, so both are compared and returned as
`size_t`; callers convert the `int` operand with `to_size_t`. -/
def MIN (a b : Nat) : Nat := if a ≤ b then a else b

/-- Line 8. -/
def BULK_EP_OUT : Nat := 0x02

/-- Line 9. -/
def BULK_EP_IN : Nat := 0x81

/-- Line 10. -/
def MAX_PKT_SIZE : Nat := 512

/-- The errno value behind `-EFAULT`. -/
def EFAULT : Int := 14

/-! ## Kernel data types used by the driver -/

/-- The part of `struct usb_device` the driver and the bus look at. -/
structure usb_device where
  devnum : Nat
  idVendor : Nat
  idProduct : Nat
deriving DecidableEq, Repr

/-- The part of `struct usb_interface` used: its parent device and its minor
(`-1` while no minor is assigned). -/
structure usb_interface where
  usbdev : usb_device
  minor : Int
deriving DecidableEq, Repr

/-- Kernel helper `interface_to_usbdev`: the device an interface belongs to. -/
def interface_to_usbdev (intf : usb_interface) : usb_device := intf.usbdev

/-- The four file-operation entry points of the driver, as function-pointer values. -/
inductive Handler where
  | pen_open
  | pen_close
  | pen_read
  | pen_write
deriving DecidableEq, Repr

/-- The slots of `struct file_operations` the source fills (a slot is `none` when the
function pointer is NULL).  `open_` is the `.open` slot. -/
structure file_operations where
  open_ : Option Handler
  release : Option Handler
  read : Option Handler
  write : Option Handler
deriving DecidableEq, Repr

/-- Lines 67-74. -/
def my_fops : file_operations :=
  { open_ := some Handler.pen_open
    release := some Handler.pen_close
    read := some Handler.pen_read
    write := some Handler.pen_write }

/-- The fields of `struct usb_class_driver` the source assigns; both are pointers and are
NULL (`none`) in the zero-initialised static `class`. -/
structure usb_class_driver where
  name : Option String
  fops : Option file_operations
deriving DecidableEq, Repr

/-- Direction of a bulk pipe. -/
inductive Direction where
  | IN
  | OUT
deriving DecidableEq, Repr

/-- Modelled from the spec: the kernel pipe constructors `usb_sndbulkpipe` and
`usb_rcvbulkpipe` are not part of the source; a pipe is kept as the record of what the
constructor was given (`syncBulkTransfer(handle, endpointAddress, ...)` of spec §6): the
direction, the device and the endpoint address. -/
structure Pipe where
  dir : Direction
  dev : usb_device
  endpoint : Nat
deriving DecidableEq, Repr

/-- Bulk OUT pipe of `dev` at `endpoint`. -/
def usb_sndbulkpipe (dev : usb_device) (endpoint : Nat) : Pipe :=
  { dir := Direction.OUT, dev := dev, endpoint := endpoint }

/-- Bulk IN pipe of `dev` at `endpoint`. -/
def usb_rcvbulkpipe (dev : usb_device) (endpoint : Nat) : Pipe :=
  { dir := Direction.IN, dev := dev, endpoint := endpoint }

/-- A user-space address (`char __user *`). -/
abbrev UserPtr := Nat

/-- What one call of `usb_bulk_msg` hands back: its return value, the value stored through
`actual_length`, and the contents of the data buffer afterwards. -/
structure BulkResult where
  status : Int
  actual_length : Int
  data : List Nat
deriving DecidableEq, Repr

/-- A negative errno value, as returned by a failing kernel call. -/
structure Errno where
  code : Int
  neg : code < 0

/-- One registered character-device node: its minor, the name template and the operation
set it was registered with. -/
structure DeviceNode where
  minor : Nat
  name : Option String
  fops : Option file_operations
deriving DecidableEq, Repr

/-- The host's table of registered device nodes. -/
structure Host where
  nodes : List DeviceNode
deriving DecidableEq, Repr

/-- The kernel services the driver depends on, as given primitives. -/
structure Env where
  /-- Synchronous bulk transaction: device, pipe, buffer contents, length, timeout in ms. -/
  usb_bulk_msg : usb_device → Pipe → List Nat → Int → Int → BulkResult
  /-- Copy `n` bytes of the kernel data to user space; returns the number of bytes that
  could not be copied. -/
  raw_copy_to_user : UserPtr → List Nat → Nat → Nat
  /-- Copy `n` bytes from user space over the kernel buffer; returns the number of bytes
  that could not be copied and the buffer contents afterwards. -/
  raw_copy_from_user : List Nat → UserPtr → Nat → Nat × List Nat
  /-- The host's choice when asked for a minor: a minor number, or a negative errno. -/
  alloc_minor : Host → usb_interface → usb_class_driver → Except Errno Nat

/-- A call made by the driver into the kernel. -/
inductive Event where
  | bulk (dev : usb_device) (pipe : Pipe) (data : List Nat) (len : Int) (timeout : Int)
  | copy_to_user (dst : UserPtr) (src : List Nat) (n : Nat)
  | copy_from_user (src : UserPtr) (n : Nat)
deriving DecidableEq, Repr

/-- Whether an event is a transport (`usb_bulk_msg`) invocation. -/
def Event.isBulk : Event → Bool
  | Event.bulk _ _ _ _ _ => true
  | _ => false

/-- Number of transport invocations in a list of kernel calls. -/
def bulkCalls (tr : List Event) : Nat := (tr.filter Event.isBulk).length

/-! ## Driver state (lines 13-15) -/

/-- The three globals of the source: `connected_device` (NULL is `none`), `class`
and `bulk_buf`. -/
structure Driver where
  connected_device : Option usb_device
  class_ : usb_class_driver
  bulk_buf : List Nat
deriving DecidableEq, Repr

/-- The state at module load: zero-initialised globals. -/
def Driver.init : Driver :=
  { connected_device := none
    class_ := { name := none, fops := none }
    bulk_buf := List.replicate MAX_PKT_SIZE 0 }

/-- Result of a file operation: the value returned to the caller, the driver state
afterwards and the kernel calls made, in order. -/
structure IoResult where
  retval : Int
  state : Driver
  trace : List Event
deriving DecidableEq, Repr

/-! ## File operations (lines 17-65) -/

/-- Lines 17-20. -/
def pen_open : Int := 0

/-- Lines 21-24. -/
def pen_close : Int := 0

/-- Lines 25-44.  The result is `none` when `connected_device` is NULL: the pipe
constructor reads through the pointer, so there is no defined behaviour. -/
def pen_read (env : Env) (s : Driver) (buf : UserPtr) (cnt : Nat) : Option IoResult :=
  match s.connected_device with
  | none => none
  | some dev =>
    let pipe := usb_rcvbulkpipe dev BULK_EP_IN
    let r := env.usb_bulk_msg dev pipe s.bulk_buf (MAX_PKT_SIZE : Int) 5000
    let ev := Event.bulk dev pipe s.bulk_buf (MAX_PKT_SIZE : Int) 5000
    let s1 := { s with bulk_buf := r.data }
    let retval := r.status
    let read_cnt := r.actual_length
    if retval ≠ 0 then
      some { retval := retval, state := s1, trace := [ev] }
    else
      let n := MIN cnt (to_size_t read_cnt)
      if env.raw_copy_to_user buf s1.bulk_buf n ≠ 0 then
        some { retval := -EFAULT, state := s1, trace := [ev, Event.copy_to_user buf s1.bulk_buf n] }
      else
        some { retval := to_ssize_t n, state := s1,
               trace := [ev, Event.copy_to_user buf s1.bulk_buf n] }

/-- Lines 45-65.  The copy into `bulk_buf` comes first and touches no device pointer;
after it the pipe constructor reads through `connected_device`, so the result is `none`
when that pointer is NULL.  The initial value of `wrote_cnt` is overwritten by the
transport before it is read. -/
def pen_write (env : Env) (s : Driver) (buf : UserPtr) (cnt : Nat) : Option IoResult :=
  let n := MIN cnt MAX_PKT_SIZE
  let c := env.raw_copy_from_user s.bulk_buf buf n
  let s1 := { s with bulk_buf := c.2 }
  let ev0 := Event.copy_from_user buf n
  if c.1 ≠ 0 then
    some { retval := -EFAULT, state := s1, trace := [ev0] }
  else
    match s.connected_device with
    | none => none
    | some dev =>
      let pipe := usb_sndbulkpipe dev BULK_EP_OUT
      let r := env.usb_bulk_msg dev pipe s1.bulk_buf (to_int n) 5000
      let ev := Event.bulk dev pipe s1.bulk_buf (to_int n) 5000
      let s2 := { s1 with bulk_buf := r.data }
      let retval := r.status
      let wrote_cnt := r.actual_length
      if retval ≠ 0 then
        some { retval := retval, state := s2, trace := [ev0, ev] }
      else
        some { retval := wrote_cnt, state := s2, trace := [ev0, ev] }

/-! ## Host bus subsystem: node registry and device matching -/

/-- Substitute the decimal rendering of `n` for the first `%d` of a name template. -/
def format_d : List Char → Nat → List Char
  | [], _ => []
  | '%' :: 'd' :: rest, n => Nat.toDigits 10 n ++ rest
  | c :: rest, n => c :: format_d rest n

/-- Modelled from the spec: the externally visible name of a node is its name template
with the node identity substituted (`usb/pen<N>`); the code that formats it belongs to the
host and is not part of the source. -/
def DeviceNode.path (node : DeviceNode) : Option String :=
  node.name.map (fun t => String.mk (format_d t.toList node.minor))

/-- Modelled from the spec: `allocateNodeIdentity(ops) -> id` of the host bus subsystem
(`usb_register_dev`, not part of the source).  The host either fails with a negative errno
and registers nothing, or picks a minor, stores it in the interface, registers a node
carrying the class driver's name template and operation set, and returns 0. -/
def usb_register_dev (env : Env) (h : Host) (intf : usb_interface) (cls : usb_class_driver) :
    Int × Host × usb_interface :=
  match env.alloc_minor h intf cls with
  | Except.error e => (e.code, h, intf)
  | Except.ok m =>
    (0, { nodes := { minor := m, name := cls.name, fops := cls.fops } :: h.nodes },
      { intf with minor := (m : Int) })

/-- Modelled from the spec: `releaseNodeIdentity(id)` of the host bus subsystem
(`usb_deregister_dev`, not part of the source).  Nothing happens for an interface without a
minor; otherwise the node of that minor is removed and the interface's minor reset to -1. -/
def usb_deregister_dev (h : Host) (intf : usb_interface) (_cls : usb_class_driver) :
    Host × usb_interface :=
  if intf.minor = -1 then (h, intf)
  else ({ nodes := h.nodes.filter (fun node => decide ((node.minor : Int) ≠ intf.minor)) },
        { intf with minor := -1 })

/-- Whether the host exposes a node for the interface's minor. -/
def node_exposed (h : Host) (intf : usb_interface) : Bool :=
  h.nodes.any (fun node => decide ((node.minor : Int) = intf.minor))

/-- One entry of a device match table: the match flags and the identity to compare with. -/
structure usb_device_id where
  match_flags : Nat
  idVendor : Nat
  idProduct : Nat
deriving DecidableEq, Repr

/-- Match flag: compare the vendor id. -/
def USB_DEVICE_ID_MATCH_VENDOR : Nat := 0x0001

/-- Match flag: compare the product id. -/
def USB_DEVICE_ID_MATCH_PRODUCT : Nat := 0x0002

/-- Kernel initialiser `USB_DEVICE(vend, prod)`: an entry matching on vendor and product. -/
def USB_DEVICE (vend prod : Nat) : usb_device_id :=
  { match_flags := USB_DEVICE_ID_MATCH_VENDOR ||| USB_DEVICE_ID_MATCH_PRODUCT
    idVendor := vend
    idProduct := prod }

/-- Lines 131-138, including the all-zero terminating entry `{}`. -/
def pen_table : List usb_device_id :=
  [ USB_DEVICE 0x054c 0x09c2,
    USB_DEVICE 0x8564 0x1000,
    USB_DEVICE 0x0bc2 0xab26,
    { match_flags := 0, idVendor := 0, idProduct := 0 } ]

/-- Modelled from the spec: "Lookup is exact equality match on (vendorId, productId)".
An entry accepts a device when every field selected by its flags equals the device's. -/
def usb_match_device (dev : usb_device) (id : usb_device_id) : Bool :=
  if id.match_flags &&& USB_DEVICE_ID_MATCH_VENDOR ≠ 0 ∧ id.idVendor ≠ dev.idVendor then false
  else if id.match_flags &&& USB_DEVICE_ID_MATCH_PRODUCT ≠ 0 ∧ id.idProduct ≠ dev.idProduct then
    false
  else true

/-- Modelled from the spec: the host's table lookup (`usb_match_id`, not part of the
source).  Entries are tried in order up to the terminating all-zero entry; the first one
accepting the device is returned. -/
def usb_match_id (dev : usb_device) : List usb_device_id → Option usb_device_id
  | [] => none
  | id :: rest =>
    if id.idVendor = 0 ∧ id.idProduct = 0 then none
    else if usb_match_device dev id then some id
    else usb_match_id dev rest

/-! ## Attach / Detach (lines 86-123) -/

/-- Result of `pen_probe`: the returned value, the driver state, the host's node table and
the interface afterwards. -/
structure ProbeResult where
  retval : Int
  state : Driver
  host : Host
  intf : usb_interface
deriving DecidableEq, Repr

/-- Lines 86-112.  The two branches on `retval < 0` differ only in the message logged, and
`id` is only read for logging. -/
def pen_probe (env : Env) (s : Driver) (h : Host) (interface : usb_interface)
    (_id : usb_device_id) : ProbeResult :=
  let s1 := { s with connected_device := some (interface_to_usbdev interface) }
  let s2 := { s1 with class_ := { s1.class_ with name := some "usb/pen%d" } }
  let s3 := { s2 with class_ := { s2.class_ with fops := some my_fops } }
  let r := usb_register_dev env h interface s3.class_
  let retval := r.1
  { retval := retval, state := s3, host := r.2.1, intf := r.2.2 }

/-- Result of `pen_disconnect`: the driver state, the host's node table and the interface
afterwards. -/
structure DisconnectResult where
  state : Driver
  host : Host
  intf : usb_interface
deriving DecidableEq, Repr

/-- Lines 119-123. -/
def pen_disconnect (s : Driver) (h : Host) (interface : usb_interface) : DisconnectResult :=
  let r := usb_deregister_dev h interface s.class_
  { state := s, host := r.1, intf := r.2 }

/-- Modelled from the spec: "A device whose identity is absent from the table is never
offered to this driver".  On insertion the host looks the device up in the driver's table
(`pen_driver.id_table = pen_table`, lines 151-157) and calls `pen_probe` only on a match;
the result is `none` when Attach was not invoked. -/
def usb_device_inserted (env : Env) (s : Driver) (h : Host) (intf : usb_interface) :
    Option ProbeResult :=
  match usb_match_id (interface_to_usbdev intf) pen_table with
  | none => none
  | some id => some (pen_probe env s h intf id)

/-! ## A simulated host for the concrete scenarios of spec §8 -/

/-- The bytes the simulated user program writes: 0x01 .. 0x10. -/
def simUserBytes : List Nat := [1, 2, 3, 4, 5, 6, 7, 8, 9, 10, 11, 12, 13, 14, 15, 16]

/-- The 8 bytes the simulated device sends on its IN endpoint. -/
def simDeviceBytes : List Nat := [0xa0, 0xa1, 0xa2, 0xa3, 0xa4, 0xa5, 0xa6, 0xa7]

/-- The simulated user program's memory: 1024 readable bytes, the first 16 of which are
0x01 .. 0x10. -/
def simUserMem : List Nat := simUserBytes ++ List.replicate 1008 0

/-- A well-behaved host: OUT transactions move everything offered, IN transactions deliver
the 8 device bytes, user copies succeed, and the lowest unused minor is handed out. -/
def simEnv : Env :=
  { usb_bulk_msg := fun _ pipe data len _ =>
      match pipe.dir with
      | Direction.OUT => { status := 0, actual_length := len, data := data }
      | Direction.IN =>
        { status := 0, actual_length := 8, data := simDeviceBytes ++ data.drop 8 }
    raw_copy_to_user := fun _ _ _ => 0
    raw_copy_from_user := fun dst _ n => (0, simUserMem.take n ++ dst.drop n)
    alloc_minor := fun h _ _ => Except.ok h.nodes.length }

/-- A host whose OUT endpoint is stalled (status -32) while IN transactions work; user
copies succeed. -/
def stallEnv : Env :=
  { simEnv with
    usb_bulk_msg := fun dev pipe data len t =>
      match pipe.dir with
      | Direction.OUT => { status := -32, actual_length := 0, data := data }
      | Direction.IN => simEnv.usb_bulk_msg dev pipe data len t }

/-- A host whose IN transactions time out (status -110) while OUT transactions work; user
copies succeed. -/
def timeoutEnv : Env :=
  { simEnv with
    usb_bulk_msg := fun dev pipe data len t =>
      match pipe.dir with
      | Direction.IN => { status := -110, actual_length := 0, data := data }
      | Direction.OUT => simEnv.usb_bulk_msg dev pipe data len t }

/-- A host whose IN transactions fail with status -14; user copies succeed. -/
def busFaultEnv : Env :=
  { simEnv with
    usb_bulk_msg := fun dev pipe data len t =>
      match pipe.dir with
      | Direction.IN => { status := -14, actual_length := 0, data := data }
      | Direction.OUT => simEnv.usb_bulk_msg dev pipe data len t }

/-- A host whose transport succeeds but whose user copies fault. -/
def faultEnv : Env :=
  { simEnv with
    raw_copy_to_user := fun _ _ n => n
    raw_copy_from_user := fun dst _ n => (n, dst) }

/-- A host that refuses to hand out a minor (-22). -/
def noMinorEnv : Env :=
  { simEnv with
    alloc_minor := fun _ _ _ => Except.error { code := -22, neg := by decide } }

/-- The device of the first table entry, at bus address 5. -/
def simDevice : usb_device := { devnum := 5, idVendor := 0x054c, idProduct := 0x09c2 }

/-- Its interface, before any minor is assigned. -/
def simIntf : usb_interface := { usbdev := simDevice, minor := -1 }

/-- Host with no node registered. -/
def Host.empty : Host := { nodes := [] }

/-- The state after a successful Attach of `simDevice` on the simulated host. -/
def simBound : ProbeResult := pen_probe simEnv Driver.init Host.empty simIntf (USB_DEVICE 0x054c 0x09c2)

/-- The state after a Detach following that Attach. -/
def simDetached : DisconnectResult := pen_disconnect simBound.state simBound.host simBound.intf

/-! ## The transactions issued by the file operations -/

/-- The bulk IN transaction `pen_read` issues for device `dev` (lines 31-32). -/
def bulk_in (env : Env) (s : Driver) (dev : usb_device) : BulkResult :=
  env.usb_bulk_msg dev (usb_rcvbulkpipe dev BULK_EP_IN) s.bulk_buf (MAX_PKT_SIZE : Int) 5000

/-- The copy from user space `pen_write` performs (line 50). -/
def copy_in (env : Env) (s : Driver) (buf : UserPtr) (cnt : Nat) : Nat × List Nat :=
  env.raw_copy_from_user s.bulk_buf buf (MIN cnt MAX_PKT_SIZE)

/-- The bulk OUT transaction `pen_write` issues for device `dev` (lines 56-57). -/
def bulk_out (env : Env) (s : Driver) (dev : usb_device) (buf : UserPtr) (cnt : Nat) :
    BulkResult :=
  env.usb_bulk_msg dev (usb_sndbulkpipe dev BULK_EP_OUT) (copy_in env s buf cnt).2
    (to_int (MIN cnt MAX_PKT_SIZE)) 5000

/-- The copy to user space `pen_read` performs after a successful transaction (line 38);
the value is the number of bytes that could not be copied. -/
def copy_out (env : Env) (s : Driver) (dev : usb_device) (buf : UserPtr) (cnt : Nat) : Nat :=
  env.raw_copy_to_user buf (bulk_in env s dev).data
    (MIN cnt (to_size_t (bulk_in env s dev).actual_length))

/-- BOUND: the handle slot holds the interface's device and the host exposes a node for
the interface's minor. -/
def BOUND (s : Driver) (h : Host) (intf : usb_interface) : Prop :=
  s.connected_device = some (interface_to_usbdev intf) ∧ node_exposed h intf = true

instance (s : Driver) (h : Host) (intf : usb_interface) : Decidable (BOUND s h intf) := by
  unfold BOUND; infer_instance

/-! ## Arithmetic of the conversions -/

theorem MIN_eq_min (a b : Nat) : MIN a b = min a b := by
  unfold MIN
  split <;> omega

theorem to_size_t_of_nonneg (t : Int) (h0 : 0 ≤ t) (h1 : t < 2 ^ 64) :
    to_size_t t = t.toNat := by
  unfold to_size_t
  rw [Int.emod_eq_of_lt h0 h1]

theorem to_ssize_t_of_lt (n : Nat) (h : n < 2 ^ 63) : to_ssize_t n = (n : Int) := by
  unfold to_ssize_t
  have h1 : n % 2 ^ 64 = n := Nat.mod_eq_of_lt (by omega)
  rw [h1, if_pos h]

theorem to_int_of_lt (n : Nat) (h : n < 2 ^ 31) : to_int n = (n : Int) := by
  unfold to_int
  have h1 : n % 2 ^ 32 = n := Nat.mod_eq_of_lt (by omega)
  rw [h1, if_pos h]

/-- The value `pen_read` returns on the success path, for a transferred length in the
non-negative range of `int`. -/
theorem read_count_eq (cnt : Nat) (t : Int) (h0 : 0 ≤ t) (h1 : t < 2 ^ 31) :
    to_ssize_t (MIN cnt (to_size_t t)) = min (cnt : Int) t := by
  rw [to_size_t_of_nonneg t h0 (by omega), MIN_eq_min, to_ssize_t_of_lt _ (by omega)]
  omega

/-- The length `pen_write` offers the transport. -/
theorem write_len_eq (cnt : Nat) : to_int (MIN cnt MAX_PKT_SIZE) = ((min cnt 512 : Nat) : Int) := by
  have h : MIN cnt MAX_PKT_SIZE = min cnt 512 := by rw [MIN_eq_min]; rfl
  rw [h, to_int_of_lt _ (by omega)]

/-! ## Unfolding the file operations on a held handle -/

theorem pen_read_unfold (env : Env) (s : Driver) (dev : usb_device) (buf : UserPtr) (cnt : Nat)
    (hdev : s.connected_device = some dev) :
    pen_read env s buf cnt =
      if (bulk_in env s dev).status ≠ 0 then
        some { retval := (bulk_in env s dev).status
               state := { s with bulk_buf := (bulk_in env s dev).data }
               trace := [Event.bulk dev (usb_rcvbulkpipe dev BULK_EP_IN) s.bulk_buf
                          (MAX_PKT_SIZE : Int) 5000] }
      else if copy_out env s dev buf cnt ≠ 0 then
        some { retval := -EFAULT
               state := { s with bulk_buf := (bulk_in env s dev).data }
               trace := [Event.bulk dev (usb_rcvbulkpipe dev BULK_EP_IN) s.bulk_buf
                          (MAX_PKT_SIZE : Int) 5000,
                         Event.copy_to_user buf (bulk_in env s dev).data
                          (MIN cnt (to_size_t (bulk_in env s dev).actual_length))] }
      else
        some { retval := to_ssize_t (MIN cnt (to_size_t (bulk_in env s dev).actual_length))
               state := { s with bulk_buf := (bulk_in env s dev).data }
               trace := [Event.bulk dev (usb_rcvbulkpipe dev BULK_EP_IN) s.bulk_buf
                          (MAX_PKT_SIZE : Int) 5000,
                         Event.copy_to_user buf (bulk_in env s dev).data
                          (MIN cnt (to_size_t (bulk_in env s dev).actual_length))] } := by
  simp only [pen_read, hdev, bulk_in, copy_out]

theorem pen_write_unfold (env : Env) (s : Driver) (dev : usb_device) (buf : UserPtr) (cnt : Nat)
    (hdev : s.connected_device = some dev) :
    pen_write env s buf cnt =
      if (copy_in env s buf cnt).1 ≠ 0 then
        some { retval := -EFAULT
               state := { s with bulk_buf := (copy_in env s buf cnt).2 }
               trace := [Event.copy_from_user buf (MIN cnt MAX_PKT_SIZE)] }
      else if (bulk_out env s dev buf cnt).status ≠ 0 then
        some { retval := (bulk_out env s dev buf cnt).status
               state := { s with bulk_buf := (bulk_out env s dev buf cnt).data }
               trace := [Event.copy_from_user buf (MIN cnt MAX_PKT_SIZE),
                         Event.bulk dev (usb_sndbulkpipe dev BULK_EP_OUT) (copy_in env s buf cnt).2
                          (to_int (MIN cnt MAX_PKT_SIZE)) 5000] }
      else
        some { retval := (bulk_out env s dev buf cnt).actual_length
               state := { s with bulk_buf := (bulk_out env s dev buf cnt).data }
               trace := [Event.copy_from_user buf (MIN cnt MAX_PKT_SIZE),
                         Event.bulk dev (usb_sndbulkpipe dev BULK_EP_OUT) (copy_in env s buf cnt).2
                          (to_int (MIN cnt MAX_PKT_SIZE)) 5000] } := by
  simp only [pen_write, hdev, bulk_out, copy_in]

/-! ## Claims -/

/-- C1: when the bulk IN transaction succeeds reporting a transferred length `t` (a
non-negative `int`) and the copy to the caller succeeds, `pen_read` returns exactly
`min cnt t`, hence never more than `cnt`. -/
theorem pen_read_returns_min (env : Env) (s : Driver) (dev : usb_device) (buf : UserPtr)
    (cnt : Nat) (t : Int)
    (hdev : s.connected_device = some dev)
    (hok : (bulk_in env s dev).status = 0)
    (ht : (bulk_in env s dev).actual_length = t)
    (ht0 : 0 ≤ t) (ht1 : t < 2 ^ 31)
    (hcopy : copy_out env s dev buf cnt = 0) :
    ∃ r, pen_read env s buf cnt = some r ∧ r.retval = min (cnt : Int) t ∧
      r.retval ≤ (cnt : Int) := by
  rw [pen_read_unfold env s dev buf cnt hdev]
  simp only [hok, hcopy, ne_eq, not_true_eq_false, if_false, ht]
  refine ⟨_, rfl, ?_, ?_⟩
  · exact read_count_eq cnt t ht0 ht1
  · show to_ssize_t (MIN cnt (to_size_t t)) ≤ (cnt : Int)
    rw [read_count_eq cnt t ht0 ht1]
    omega

/-- C1 at the scenario of spec §8: read(64) with the device returning 8 bytes returns 8. -/
theorem pen_read_returns_min_witness :
    simBound.state.connected_device = some simDevice ∧
    (bulk_in simEnv simBound.state simDevice).status = 0 ∧
    (bulk_in simEnv simBound.state simDevice).actual_length = 8 ∧
    copy_out simEnv simBound.state simDevice 0 64 = 0 ∧
    ∃ r, pen_read simEnv simBound.state 0 64 = some r ∧ r.retval = min ((64 : Nat) : Int) 8 ∧
      r.retval ≤ ((64 : Nat) : Int) :=
  ⟨rfl, rfl, rfl, rfl,
    pen_read_returns_min simEnv simBound.state simDevice 0 64 8 rfl rfl rfl (by decide)
      (by decide) rfl⟩

/-- C3: for every non-zero status `st` of the bulk IN transaction `pen_read` returns
exactly `st` after exactly one transport call, whatever the OUT endpoint would do; and for
every non-zero status `st` of the bulk OUT transaction `pen_write`, once its copy from the
caller succeeded, returns exactly `st` after exactly one transport call, whatever the IN
endpoint would do. -/
theorem transport_status_propagates :
    (∀ (env : Env) (s : Driver) (dev : usb_device) (buf : UserPtr) (cnt : Nat) (st : Int),
      s.connected_device = some dev → st ≠ 0 → (bulk_in env s dev).status = st →
      ∃ r, pen_read env s buf cnt = some r ∧ r.retval = st ∧ bulkCalls r.trace = 1 ∧
        r.trace = [Event.bulk dev (usb_rcvbulkpipe dev BULK_EP_IN) s.bulk_buf 512 5000]) ∧
    (∀ (env : Env) (s : Driver) (dev : usb_device) (buf : UserPtr) (cnt : Nat) (st : Int),
      s.connected_device = some dev → (copy_in env s buf cnt).1 = 0 → st ≠ 0 →
      (bulk_out env s dev buf cnt).status = st →
      ∃ w, pen_write env s buf cnt = some w ∧ w.retval = st ∧ bulkCalls w.trace = 1 ∧
        w.trace.filter Event.isBulk =
          [Event.bulk dev (usb_sndbulkpipe dev BULK_EP_OUT) (copy_in env s buf cnt).2
            ((min cnt 512 : Nat) : Int) 5000]) := by
  constructor
  · intro env s dev buf cnt st hdev hst hin
    rw [pen_read_unfold env s dev buf cnt hdev, hin, if_pos hst]
    exact ⟨_, rfl, rfl, rfl, rfl⟩
  · intro env s dev buf cnt st hdev hcopy hst hout
    rw [pen_write_unfold env s dev buf cnt hdev, hcopy, if_neg (by simp), hout, if_pos hst,
      write_len_eq]
    exact ⟨_, rfl, rfl, rfl, rfl⟩

/-- C3 on two hosts: where IN transactions time out and OUT transactions work, a read
returns -110 after a single transport call; where the OUT endpoint is stalled and IN
transactions work, a write returns -32 after a single transport call. -/
theorem transport_status_propagates_witness :
    (simBound.state.connected_device = some simDevice ∧
     (bulk_in timeoutEnv simBound.state simDevice).status = -110 ∧
     (bulk_out timeoutEnv simBound.state simDevice 0 16).status = 0 ∧
     ∃ r, pen_read timeoutEnv simBound.state 0 64 = some r ∧ r.retval = -110 ∧
       bulkCalls r.trace = 1 ∧
       r.trace = [Event.bulk simDevice (usb_rcvbulkpipe simDevice BULK_EP_IN)
                   simBound.state.bulk_buf 512 5000]) ∧
    ((copy_in stallEnv simBound.state 0 16).1 = 0 ∧
     (bulk_out stallEnv simBound.state simDevice 0 16).status = -32 ∧
     (bulk_in stallEnv simBound.state simDevice).status = 0 ∧
     ∃ w, pen_write stallEnv simBound.state 0 16 = some w ∧ w.retval = -32 ∧
       bulkCalls w.trace = 1 ∧
       w.trace.filter Event.isBulk =
         [Event.bulk simDevice (usb_sndbulkpipe simDevice BULK_EP_OUT)
           (copy_in stallEnv simBound.state 0 16).2 ((min 16 512 : Nat) : Int) 5000]) :=
  ⟨⟨rfl, rfl, rfl,
      transport_status_propagates.1 timeoutEnv simBound.state simDevice 0 64 (-110) rfl
        (by decide) rfl⟩,
   ⟨rfl, rfl, rfl,
      transport_status_propagates.2 stallEnv simBound.state simDevice 0 16 (-32) rfl rfl
        (by decide) rfl⟩⟩

/-- C4: when the copy from the caller succeeds and the bulk OUT transaction succeeds
reporting `w`, `pen_write` returns exactly `w`, and its only transport call is on the OUT
pipe of endpoint 0x02 with length `min cnt 512` and the 5000 ms timeout. -/
theorem pen_write_returns_transferred (env : Env) (s : Driver) (dev : usb_device)
    (buf : UserPtr) (cnt : Nat) (w : Int)
    (hdev : s.connected_device = some dev)
    (hcopy : (copy_in env s buf cnt).1 = 0)
    (hok : (bulk_out env s dev buf cnt).status = 0)
    (hw : (bulk_out env s dev buf cnt).actual_length = w) :
    ∃ r, pen_write env s buf cnt = some r ∧ r.retval = w ∧
      r.trace.filter Event.isBulk =
        [Event.bulk dev { dir := Direction.OUT, dev := dev, endpoint := 0x02 }
          (copy_in env s buf cnt).2 ((min cnt 512 : Nat) : Int) 5000] ∧
      bulkCalls r.trace = 1 := by
  rw [pen_write_unfold env s dev buf cnt hdev, hcopy, if_neg (by simp), hok, if_neg (by simp), hw,
    write_len_eq]
  exact ⟨_, rfl, rfl, rfl, rfl⟩

/-- C4 at the scenario of spec §8: writing the 16 bytes 0x01..0x10 offers the transport
those 16 bytes on the OUT pipe and returns 16. -/
theorem pen_write_returns_transferred_witness :
    simBound.state.connected_device = some simDevice ∧
    (copy_in simEnv simBound.state 0 16).1 = 0 ∧
    (bulk_out simEnv simBound.state simDevice 0 16).status = 0 ∧
    (bulk_out simEnv simBound.state simDevice 0 16).actual_length = 16 ∧
    (copy_in simEnv simBound.state 0 16).2.take 16 = simUserBytes ∧
    ∃ r, pen_write simEnv simBound.state 0 16 = some r ∧ r.retval = 16 ∧
      r.trace.filter Event.isBulk =
        [Event.bulk simDevice { dir := Direction.OUT, dev := simDevice, endpoint := 0x02 }
          (copy_in simEnv simBound.state 0 16).2 ((min 16 512 : Nat) : Int) 5000] ∧
      bulkCalls r.trace = 1 :=
  ⟨rfl, rfl, rfl, rfl, rfl,
    pen_write_returns_transferred simEnv simBound.state simDevice 0 16 16 rfl rfl rfl rfl⟩

/-- C5: for a requested length above 512, `pen_write` asks for exactly 512 bytes from the
caller and (once that copy succeeded) offers the transport exactly 512 bytes, `pen_read`
offers the transport a 512-byte request, and when the transport reports a length between 0
and what it was offered, each operation returns either a value of at most 512 or the
transport's non-zero status. -/
theorem transfer_capped_at_512 (env : Env) (s : Driver) (dev : usb_device) (buf : UserPtr)
    (cnt : Nat)
    (hdev : s.connected_device = some dev)
    (hcnt : 512 < cnt)
    (hin : 0 ≤ (bulk_in env s dev).actual_length ∧ (bulk_in env s dev).actual_length ≤ 512)
    (hout : (bulk_out env s dev buf cnt).actual_length ≤ 512) :
    (∃ r, pen_read env s buf cnt = some r ∧
      r.trace.head? = some (Event.bulk dev (usb_rcvbulkpipe dev BULK_EP_IN) s.bulk_buf 512 5000) ∧
      bulkCalls r.trace = 1 ∧
      (r.retval ≤ 512 ∨
        (r.retval = (bulk_in env s dev).status ∧ (bulk_in env s dev).status ≠ 0))) ∧
    (∃ w, pen_write env s buf cnt = some w ∧
      w.trace.head? = some (Event.copy_from_user buf 512) ∧
      ((copy_in env s buf cnt).1 = 0 →
        w.trace = [Event.copy_from_user buf 512,
                   Event.bulk dev (usb_sndbulkpipe dev BULK_EP_OUT) (copy_in env s buf cnt).2
                     512 5000]) ∧
      (w.retval ≤ 512 ∨
        (w.retval = (bulk_out env s dev buf cnt).status ∧
          (bulk_out env s dev buf cnt).status ≠ 0))) := by
  have hmin : MIN cnt MAX_PKT_SIZE = 512 := by
    rw [MIN_eq_min]; show min cnt 512 = 512; omega
  have hlen : to_int (MIN cnt MAX_PKT_SIZE) = 512 := by
    rw [write_len_eq]
    have : min cnt 512 = 512 := by omega
    rw [this]; rfl
  constructor
  · rw [pen_read_unfold env s dev buf cnt hdev]
    by_cases hs : (bulk_in env s dev).status ≠ 0
    · rw [if_pos hs]
      exact ⟨_, rfl, rfl, rfl, Or.inr ⟨rfl, hs⟩⟩
    · rw [if_neg hs]
      by_cases hc : copy_out env s dev buf cnt ≠ 0
      · rw [if_pos hc]
        exact ⟨_, rfl, rfl, rfl, Or.inl (show (-EFAULT : Int) ≤ 512 by decide)⟩
      · rw [if_neg hc]
        refine ⟨_, rfl, rfl, rfl, Or.inl ?_⟩
        show to_ssize_t (MIN cnt (to_size_t (bulk_in env s dev).actual_length)) ≤ 512
        rw [read_count_eq cnt _ hin.1 (by omega)]
        omega
  · rw [pen_write_unfold env s dev buf cnt hdev, hlen, hmin]
    by_cases hc : (copy_in env s buf cnt).1 ≠ 0
    · rw [if_pos hc]
      exact ⟨_, rfl, rfl, fun h0 => absurd h0 hc, Or.inl (show (-EFAULT : Int) ≤ 512 by decide)⟩
    · rw [if_neg hc]
      by_cases hs : (bulk_out env s dev buf cnt).status ≠ 0
      · rw [if_pos hs]
        exact ⟨_, rfl, rfl, fun _ => rfl, Or.inr ⟨rfl, hs⟩⟩
      · rw [if_neg hs]
        exact ⟨_, rfl, rfl, fun _ => rfl, Or.inl hout⟩

/-- C5 on the simulated host with a request of 1000 bytes. -/
theorem transfer_capped_at_512_witness :
    simBound.state.connected_device = some simDevice ∧
    512 < 1000 ∧
    (0 ≤ (bulk_in simEnv simBound.state simDevice).actual_length ∧
      (bulk_in simEnv simBound.state simDevice).actual_length ≤ 512) ∧
    (bulk_out simEnv simBound.state simDevice 0 1000).actual_length ≤ 512 ∧
    ((∃ r, pen_read simEnv simBound.state 0 1000 = some r ∧
      r.trace.head? = some (Event.bulk simDevice (usb_rcvbulkpipe simDevice BULK_EP_IN)
        simBound.state.bulk_buf 512 5000) ∧
      bulkCalls r.trace = 1 ∧
      (r.retval ≤ 512 ∨
        (r.retval = (bulk_in simEnv simBound.state simDevice).status ∧
          (bulk_in simEnv simBound.state simDevice).status ≠ 0))) ∧
    (∃ w, pen_write simEnv simBound.state 0 1000 = some w ∧
      w.trace.head? = some (Event.copy_from_user 0 512) ∧
      ((copy_in simEnv simBound.state 0 1000).1 = 0 →
        w.trace = [Event.copy_from_user 0 512,
                   Event.bulk simDevice (usb_sndbulkpipe simDevice BULK_EP_OUT)
                     (copy_in simEnv simBound.state 0 1000).2 512 5000]) ∧
      (w.retval ≤ 512 ∨
        (w.retval = (bulk_out simEnv simBound.state simDevice 0 1000).status ∧
          (bulk_out simEnv simBound.state simDevice 0 1000).status ≠ 0)))) :=
  ⟨rfl, by decide, by decide, by decide,
    transfer_capped_at_512 simEnv simBound.state simDevice 0 1000 rfl (by decide) (by decide)
      (by decide)⟩

/-- C6, as stated, fails in its last clause: on a host whose IN transaction succeeds and
whose copy to the caller faults, a read of 64 bytes returns -14; on a host whose IN
transaction fails with status -14 the same read returns -14 as well, without any copy.  The
result of the copy fault is therefore not distinct from every transport-error result. -/
theorem fault_result_meets_transport_result :
    (bulk_in faultEnv simBound.state simDevice).status = 0 ∧
    copy_out faultEnv simBound.state simDevice 0 64 ≠ 0 ∧
    (pen_read faultEnv simBound.state 0 64).map (fun r => (r.retval, r.trace.length))
      = some (-14, 2) ∧
    (bulk_in busFaultEnv simBound.state simDevice).status ≠ 0 ∧
    (pen_read busFaultEnv simBound.state 0 64).map (fun r => (r.retval, r.trace.length))
      = some (-14, 1) := by
  refine ⟨?_, ?_, ?_, ?_, ?_⟩ <;> decide

/-- C6 amended: a failing copy from the caller makes `pen_write` return `-EFAULT` (-14)
without any transport call, whatever the driver state and whatever the transport would do;
a failing copy to the caller after a successful transaction makes `pen_read` return
`-EFAULT` after its single transport call; and a failed transaction, of non-zero status
`st`, makes `pen_read` return a value different from `-EFAULT` exactly when `st` is not
-14. -/
theorem copy_fault_yields_EFAULT :
    (∀ (env : Env) (s : Driver) (buf : UserPtr) (cnt : Nat),
      (copy_in env s buf cnt).1 ≠ 0 →
      ∃ w, pen_write env s buf cnt = some w ∧ w.retval = -EFAULT ∧ w.retval = -14 ∧
        bulkCalls w.trace = 0 ∧ w.trace = [Event.copy_from_user buf (min cnt 512)]) ∧
    (∀ (env : Env) (s : Driver) (dev : usb_device) (buf : UserPtr) (cnt : Nat),
      s.connected_device = some dev → (bulk_in env s dev).status = 0 →
      copy_out env s dev buf cnt ≠ 0 →
      ∃ r, pen_read env s buf cnt = some r ∧ r.retval = -EFAULT ∧ r.retval = -14 ∧
        bulkCalls r.trace = 1) ∧
    (∀ (env : Env) (s : Driver) (dev : usb_device) (buf : UserPtr) (cnt : Nat) (st : Int),
      s.connected_device = some dev → st ≠ 0 → (bulk_in env s dev).status = st →
      ∃ r, pen_read env s buf cnt = some r ∧ (r.retval ≠ -EFAULT ↔ st ≠ -14)) := by
  refine ⟨?_, ?_, ?_⟩
  · intro env s buf cnt hin
    have hw : pen_write env s buf cnt =
        some { retval := -EFAULT
               state := { s with bulk_buf := (copy_in env s buf cnt).2 }
               trace := [Event.copy_from_user buf (MIN cnt MAX_PKT_SIZE)] } := by
      unfold copy_in at hin
      simp only [pen_write, copy_in, if_pos hin]
    have hmin : MIN cnt MAX_PKT_SIZE = min cnt 512 := by rw [MIN_eq_min]; rfl
    rw [hw, hmin]
    exact ⟨_, rfl, rfl, rfl, rfl, rfl⟩
  · intro env s dev buf cnt hdev hok hout
    rw [pen_read_unfold env s dev buf cnt hdev, hok, if_neg (by simp), if_pos hout]
    exact ⟨_, rfl, rfl, rfl, rfl⟩
  · intro env s dev buf cnt st hdev hst hin
    rw [pen_read_unfold env s dev buf cnt hdev, hin, if_pos hst]
    refine ⟨_, rfl, ?_⟩
    show st ≠ -EFAULT ↔ st ≠ -14
    exact Iff.rfl

/-- C6 amended, on three hosts: a write on the freshly loaded driver with faulting user
copies, a read on the attached driver with faulting user copies, and a read on the attached
driver whose IN transactions time out with status -110. -/
theorem copy_fault_yields_EFAULT_witness :
    ((copy_in faultEnv Driver.init 0 16).1 ≠ 0 ∧
     ∃ w, pen_write faultEnv Driver.init 0 16 = some w ∧ w.retval = -EFAULT ∧ w.retval = -14 ∧
       bulkCalls w.trace = 0 ∧ w.trace = [Event.copy_from_user 0 (min 16 512)]) ∧
    (simBound.state.connected_device = some simDevice ∧
     (bulk_in faultEnv simBound.state simDevice).status = 0 ∧
     copy_out faultEnv simBound.state simDevice 0 64 ≠ 0 ∧
     ∃ r, pen_read faultEnv simBound.state 0 64 = some r ∧ r.retval = -EFAULT ∧
       r.retval = -14 ∧ bulkCalls r.trace = 1) ∧
    ((bulk_in timeoutEnv simBound.state simDevice).status = -110 ∧
     ∃ r, pen_read timeoutEnv simBound.state 0 64 = some r ∧
       (r.retval ≠ -EFAULT ↔ (-110 : Int) ≠ -14)) :=
  ⟨⟨by decide, copy_fault_yields_EFAULT.1 faultEnv Driver.init 0 16 (by decide)⟩,
   ⟨rfl, rfl, by decide,
     copy_fault_yields_EFAULT.2.1 faultEnv simBound.state simDevice 0 64 rfl rfl (by decide)⟩,
   ⟨rfl,
     copy_fault_yields_EFAULT.2.2 timeoutEnv simBound.state simDevice 0 64 (-110) rfl
       (by decide) rfl⟩⟩

/-- C2, as stated, fails: after Attach and Detach on the simulated host no node is exposed
any more, yet a read of 64 bytes makes one transport call and returns 8, and a write of 16
bytes makes one transport call and returns 16. -/
theorem io_after_detach_reaches_transport :
    node_exposed simDetached.host simBound.intf = false ∧
    (pen_read simEnv simDetached.state 0 64).map (fun r => (r.retval, bulkCalls r.trace))
      = some (8, 1) ∧
    (pen_write simEnv simDetached.state 0 16).map (fun r => (r.retval, bulkCalls r.trace))
      = some (16, 1) := by
  refine ⟨?_, ?_, ?_⟩ <;> decide

/-- C2 amended: `pen_read` and `pen_write` perform no bound-state check.  After a Detach the
handle slot still holds the device `dev` it held before, `pen_read` makes exactly one
transport call, on the IN pipe of `dev`, and `pen_write` makes exactly one, on the OUT pipe
of `dev`, when its copy from the caller succeeds and none (returning `-EFAULT`) when it
fails. -/
theorem io_after_detach_uses_retained_handle (env : Env) (s : Driver) (h : Host)
    (intf : usb_interface) (dev : usb_device) (buf : UserPtr) (cnt : Nat)
    (hdev : s.connected_device = some dev) :
    (pen_disconnect s h intf).state.connected_device = some dev ∧
    (∃ r, pen_read env (pen_disconnect s h intf).state buf cnt = some r ∧
      r.trace.filter Event.isBulk =
        [Event.bulk dev (usb_rcvbulkpipe dev BULK_EP_IN) s.bulk_buf 512 5000]) ∧
    (∃ w, pen_write env (pen_disconnect s h intf).state buf cnt = some w ∧
      (if (copy_in env s buf cnt).1 = 0 then
        w.trace.filter Event.isBulk =
          [Event.bulk dev (usb_sndbulkpipe dev BULK_EP_OUT) (copy_in env s buf cnt).2
            ((min cnt 512 : Nat) : Int) 5000]
       else w.retval = -EFAULT ∧ bulkCalls w.trace = 0)) := by
  have hs : (pen_disconnect s h intf).state = s := rfl
  rw [hs]
  refine ⟨hdev, ?_, ?_⟩
  · rw [pen_read_unfold env s dev buf cnt hdev]
    by_cases h1 : (bulk_in env s dev).status ≠ 0
    · rw [if_pos h1]; exact ⟨_, rfl, rfl⟩
    · rw [if_neg h1]
      by_cases h2 : copy_out env s dev buf cnt ≠ 0
      · rw [if_pos h2]; exact ⟨_, rfl, rfl⟩
      · rw [if_neg h2]; exact ⟨_, rfl, rfl⟩
  · rw [pen_write_unfold env s dev buf cnt hdev, write_len_eq]
    by_cases h1 : (copy_in env s buf cnt).1 = 0
    · rw [if_neg (not_not.mpr h1)]
      by_cases h2 : (bulk_out env s dev buf cnt).status ≠ 0
      · rw [if_pos h2]
        refine ⟨_, rfl, ?_⟩
        rw [if_pos h1]; rfl
      · rw [if_neg h2]
        refine ⟨_, rfl, ?_⟩
        rw [if_pos h1]; rfl
    · rw [if_pos h1]
      refine ⟨_, rfl, ?_⟩
      rw [if_neg h1]
      exact ⟨rfl, rfl⟩

/-- C2 amended, on the simulated host after Attach and Detach. -/
theorem io_after_detach_uses_retained_handle_witness :
    simBound.state.connected_device = some simDevice ∧
    ((pen_disconnect simBound.state simBound.host simBound.intf).state.connected_device
      = some simDevice ∧
    (∃ r, pen_read simEnv (pen_disconnect simBound.state simBound.host simBound.intf).state 0 64
        = some r ∧
      r.trace.filter Event.isBulk =
        [Event.bulk simDevice (usb_rcvbulkpipe simDevice BULK_EP_IN) simBound.state.bulk_buf
          512 5000]) ∧
    (∃ w, pen_write simEnv (pen_disconnect simBound.state simBound.host simBound.intf).state 0 16
        = some w ∧
      (if (copy_in simEnv simBound.state 0 16).1 = 0 then
        w.trace.filter Event.isBulk =
          [Event.bulk simDevice (usb_sndbulkpipe simDevice BULK_EP_OUT)
            (copy_in simEnv simBound.state 0 16).2 ((min 16 512 : Nat) : Int) 5000]
       else w.retval = -EFAULT ∧ bulkCalls w.trace = 0))) :=
  ⟨rfl, io_after_detach_uses_retained_handle simEnv simBound.state simBound.host simBound.intf
    simDevice 0 16 rfl⟩

/-! ## Attach and Detach -/

/-- Releasing the minor of an interface leaves no node exposed for it. -/
theorem node_exposed_deregister (h : Host) (intf : usb_interface) (cls : usb_class_driver)
    (hm : intf.minor ≠ -1) :
    node_exposed (usb_deregister_dev h intf cls).1 intf = false := by
  unfold usb_deregister_dev node_exposed
  rw [if_neg hm]
  simp only [List.any_eq_false, List.mem_filter, decide_eq_true_eq]
  intro node hnode
  exact hnode.2

/-- An interface with an exposed node has a minor. -/
theorem minor_of_node_exposed (h : Host) (intf : usb_interface)
    (he : node_exposed h intf = true) : intf.minor ≠ -1 := by
  unfold node_exposed at he
  simp only [List.any_eq_true, decide_eq_true_eq] at he
  obtain ⟨node, _, hnode⟩ := he
  omega

/-- C7, as stated, fails: when the host refuses a minor, Attach on the freshly loaded
driver returns -22 and registers no node, but the handle slot, empty before, now holds the
device. -/
theorem failed_attach_leaves_handle :
    Driver.init.connected_device = none ∧
    (pen_probe noMinorEnv Driver.init Host.empty simIntf (USB_DEVICE 0x054c 0x09c2)).retval = -22 ∧
    (pen_probe noMinorEnv Driver.init Host.empty simIntf (USB_DEVICE 0x054c 0x09c2)).host
      = Host.empty ∧
    (pen_probe noMinorEnv Driver.init Host.empty simIntf
      (USB_DEVICE 0x054c 0x09c2)).state.connected_device = some simDevice := by
  refine ⟨rfl, ?_, ?_, ?_⟩ <;> decide

/-- C7 amended: when the node-identity allocation fails with errno `e`, `pen_probe` returns
`e` (a negative value) to its caller, the host's node table and the interface are left as
they were, so no node is exposed by this Attach, and the handle slot holds the device of
the attaching interface. -/
theorem pen_probe_alloc_failure (env : Env) (s : Driver) (h : Host) (interface : usb_interface)
    (id : usb_device_id) (e : Errno)
    (halloc : env.alloc_minor h interface { name := some "usb/pen%d", fops := some my_fops }
      = Except.error e) :
    (pen_probe env s h interface id).retval = e.code ∧
    (pen_probe env s h interface id).retval < 0 ∧
    (pen_probe env s h interface id).host = h ∧
    (pen_probe env s h interface id).intf = interface ∧
    (pen_probe env s h interface id).state.connected_device
      = some (interface_to_usbdev interface) := by
  have hr : usb_register_dev env h interface { name := some "usb/pen%d", fops := some my_fops }
      = (e.code, h, interface) := by
    simp only [usb_register_dev, halloc]
  have hp : pen_probe env s h interface id =
      { retval := e.code
        state := { connected_device := some (interface_to_usbdev interface)
                   class_ := { name := some "usb/pen%d", fops := some my_fops }
                   bulk_buf := s.bulk_buf }
        host := h
        intf := interface } := by
    simp only [pen_probe, hr]
  rw [hp]
  exact ⟨rfl, e.neg, rfl, rfl, rfl⟩

/-- C7 amended, on a host that refuses to hand out a minor. -/
theorem pen_probe_alloc_failure_witness :
    noMinorEnv.alloc_minor Host.empty simIntf { name := some "usb/pen%d", fops := some my_fops }
      = Except.error { code := -22, neg := by decide } ∧
    ((pen_probe noMinorEnv Driver.init Host.empty simIntf (USB_DEVICE 0x054c 0x09c2)).retval
      = -22 ∧
    (pen_probe noMinorEnv Driver.init Host.empty simIntf (USB_DEVICE 0x054c 0x09c2)).retval < 0 ∧
    (pen_probe noMinorEnv Driver.init Host.empty simIntf (USB_DEVICE 0x054c 0x09c2)).host
      = Host.empty ∧
    (pen_probe noMinorEnv Driver.init Host.empty simIntf (USB_DEVICE 0x054c 0x09c2)).intf
      = simIntf ∧
    (pen_probe noMinorEnv Driver.init Host.empty simIntf
      (USB_DEVICE 0x054c 0x09c2)).state.connected_device = some (interface_to_usbdev simIntf)) :=
  ⟨rfl, pen_probe_alloc_failure noMinorEnv Driver.init Host.empty simIntf
    (USB_DEVICE 0x054c 0x09c2) { code := -22, neg := by decide } rfl⟩

/-- C8, as stated, fails: the simulated Attach gives a BOUND state, and after Detach the
handle slot still holds the device; a write of 16 bytes then makes a transport call on
that device and returns 16. -/
theorem detach_keeps_handle :
    BOUND simBound.state simBound.host simBound.intf ∧
    simDetached.state.connected_device = some simDevice ∧
    (pen_write simEnv simDetached.state 0 16).map
      (fun r => (r.retval, r.trace.filter Event.isBulk))
      = some (16, [Event.bulk simDevice (usb_sndbulkpipe simDevice BULK_EP_OUT)
                    (copy_in simEnv simBound.state 0 16).2 16 5000]) := by
  refine ⟨?_, ?_, ?_⟩
  · decide
  · decide
  · rfl

/-- C8 amended: from every BOUND state, `pen_disconnect` releases the device-node identity
(no node stays exposed for the interface's minor and the interface's minor is reset to -1)
and changes nothing in the driver state: the handle slot still holds the device, and a read
or write issued afterwards behaves exactly as one issued before the Detach. -/
theorem pen_disconnect_releases_node_only (s : Driver) (h : Host) (intf : usb_interface)
    (hb : BOUND s h intf) :
    node_exposed (pen_disconnect s h intf).host intf = false ∧
    (pen_disconnect s h intf).intf.minor = -1 ∧
    (pen_disconnect s h intf).state = s ∧
    (pen_disconnect s h intf).state.connected_device = some (interface_to_usbdev intf) ∧
    (∀ (env : Env) (buf : UserPtr) (cnt : Nat),
      pen_read env (pen_disconnect s h intf).state buf cnt = pen_read env s buf cnt ∧
      pen_write env (pen_disconnect s h intf).state buf cnt = pen_write env s buf cnt) := by
  have hm : intf.minor ≠ -1 := minor_of_node_exposed h intf hb.2
  refine ⟨node_exposed_deregister h intf s.class_ hm, ?_, rfl, hb.1, fun _ _ _ => ⟨rfl, rfl⟩⟩
  simp only [pen_disconnect, usb_deregister_dev, if_neg hm]

/-- C8 amended, on the simulated host after Attach. -/
theorem pen_disconnect_releases_node_only_witness :
    BOUND simBound.state simBound.host simBound.intf ∧
    (node_exposed (pen_disconnect simBound.state simBound.host simBound.intf).host simBound.intf
      = false ∧
    (pen_disconnect simBound.state simBound.host simBound.intf).intf.minor = -1 ∧
    (pen_disconnect simBound.state simBound.host simBound.intf).state = simBound.state ∧
    (pen_disconnect simBound.state simBound.host simBound.intf).state.connected_device
      = some (interface_to_usbdev simBound.intf) ∧
    (∀ (env : Env) (buf : UserPtr) (cnt : Nat),
      pen_read env (pen_disconnect simBound.state simBound.host simBound.intf).state buf cnt
        = pen_read env simBound.state buf cnt ∧
      pen_write env (pen_disconnect simBound.state simBound.host simBound.intf).state buf cnt
        = pen_write env simBound.state buf cnt)) :=
  ⟨by decide, pen_disconnect_releases_node_only simBound.state simBound.host simBound.intf
    (by decide)⟩

/-- C9: when the node-identity allocation succeeds with minor `m`, `pen_probe` returns 0,
the handle slot holds the device of the attaching interface, and the node registered for
`m` carries the name template "usb/pen%d" and the operation set open, close (release), read,
write of the driver. -/
theorem pen_probe_success (env : Env) (s : Driver) (h : Host) (interface : usb_interface)
    (id : usb_device_id) (m : Nat)
    (halloc : env.alloc_minor h interface { name := some "usb/pen%d", fops := some my_fops }
      = Except.ok m) :
    (pen_probe env s h interface id).retval = 0 ∧
    (pen_probe env s h interface id).state.connected_device
      = some (interface_to_usbdev interface) ∧
    (pen_probe env s h interface id).host.nodes =
      { minor := m
        name := some "usb/pen%d"
        fops := some { open_ := some Handler.pen_open
                       release := some Handler.pen_close
                       read := some Handler.pen_read
                       write := some Handler.pen_write } } :: h.nodes ∧
    (pen_probe env s h interface id).intf.minor = (m : Int) ∧
    node_exposed (pen_probe env s h interface id).host (pen_probe env s h interface id).intf
      = true := by
  have hr : usb_register_dev env h interface { name := some "usb/pen%d", fops := some my_fops }
      = (0, { nodes := { minor := m, name := some "usb/pen%d", fops := some my_fops } :: h.nodes },
          { interface with minor := (m : Int) }) := by
    simp only [usb_register_dev, halloc]
  have hp : pen_probe env s h interface id =
      { retval := 0
        state := { connected_device := some (interface_to_usbdev interface)
                   class_ := { name := some "usb/pen%d", fops := some my_fops }
                   bulk_buf := s.bulk_buf }
        host := { nodes := { minor := m, name := some "usb/pen%d", fops := some my_fops }
                    :: h.nodes }
        intf := { interface with minor := (m : Int) } } := by
    simp only [pen_probe, hr]
  rw [hp]
  refine ⟨rfl, rfl, rfl, rfl, ?_⟩
  simp [node_exposed]

/-- C9 at the scenario of spec §8: inserting device (0x054c,0x09c2) on the simulated host,
which hands out minor 0, Attach is invoked and a node named "usb/pen0" exists. -/
theorem pen_probe_success_witness :
    simEnv.alloc_minor Host.empty simIntf { name := some "usb/pen%d", fops := some my_fops }
      = Except.ok 0 ∧
    (usb_device_inserted simEnv Driver.init Host.empty simIntf).map
      (fun r => (r.retval, r.host.nodes.map DeviceNode.path)) = some (0, [some "usb/pen0"]) ∧
    ((pen_probe simEnv Driver.init Host.empty simIntf (USB_DEVICE 0x054c 0x09c2)).retval = 0 ∧
    (pen_probe simEnv Driver.init Host.empty simIntf
      (USB_DEVICE 0x054c 0x09c2)).state.connected_device = some (interface_to_usbdev simIntf) ∧
    (pen_probe simEnv Driver.init Host.empty simIntf (USB_DEVICE 0x054c 0x09c2)).host.nodes =
      { minor := 0
        name := some "usb/pen%d"
        fops := some { open_ := some Handler.pen_open
                       release := some Handler.pen_close
                       read := some Handler.pen_read
                       write := some Handler.pen_write } } :: Host.empty.nodes ∧
    (pen_probe simEnv Driver.init Host.empty simIntf (USB_DEVICE 0x054c 0x09c2)).intf.minor
      = ((0 : Nat) : Int) ∧
    node_exposed (pen_probe simEnv Driver.init Host.empty simIntf (USB_DEVICE 0x054c 0x09c2)).host
      (pen_probe simEnv Driver.init Host.empty simIntf (USB_DEVICE 0x054c 0x09c2)).intf = true) :=
  ⟨rfl, by decide,
    pen_probe_success simEnv Driver.init Host.empty simIntf (USB_DEVICE 0x054c 0x09c2) 0 rfl⟩

/-- The table lookup on a device of identity `(v, p)`. -/
theorem usb_match_id_pen_table (devnum v p : Nat) :
    (usb_match_id { devnum := devnum, idVendor := v, idProduct := p } pen_table).isSome = true ↔
      ((v = 0x054c ∧ p = 0x09c2) ∨ (v = 0x8564 ∧ p = 0x1000) ∨ (v = 0x0bc2 ∧ p = 0xab26)) := by
  simp only [pen_table, usb_match_id, usb_match_device, USB_DEVICE, USB_DEVICE_ID_MATCH_VENDOR,
    USB_DEVICE_ID_MATCH_PRODUCT]
  simp
  split_ifs with h1 h2 h3 <;>
    simp only [Option.isSome_some, Option.isSome_none, true_iff, false_iff, Bool.false_eq_true] <;>
    omega

/-- C10: the lookup of a device identity in the driver's match table succeeds exactly for
(0x054c,0x09c2), (0x8564,0x1000) and (0x0bc2,0xab26), Attach is invoked on insertion exactly
when the lookup succeeds, and for (0xffff,0xffff) the lookup fails and Attach is not
invoked, so the driver state and the node table stay as they were. -/
theorem match_table_exact (env : Env) (s : Driver) (h : Host) (devnum v p : Nat) (minor : Int) :
    ((usb_match_id { devnum := devnum, idVendor := v, idProduct := p } pen_table).isSome = true ↔
      ((v = 0x054c ∧ p = 0x09c2) ∨ (v = 0x8564 ∧ p = 0x1000) ∨ (v = 0x0bc2 ∧ p = 0xab26))) ∧
    ((usb_device_inserted env s h
        { usbdev := { devnum := devnum, idVendor := v, idProduct := p }, minor := minor }).isSome
        = true ↔
      ((v = 0x054c ∧ p = 0x09c2) ∨ (v = 0x8564 ∧ p = 0x1000) ∨ (v = 0x0bc2 ∧ p = 0xab26))) ∧
    usb_match_id { devnum := devnum, idVendor := 0xffff, idProduct := 0xffff } pen_table = none ∧
    usb_device_inserted env s h
      { usbdev := { devnum := devnum, idVendor := 0xffff, idProduct := 0xffff }, minor := minor }
      = none := by
  have key := usb_match_id_pen_table devnum v p
  have hff : usb_match_id { devnum := devnum, idVendor := 0xffff, idProduct := 0xffff } pen_table
      = none := by
    have := usb_match_id_pen_table devnum 0xffff 0xffff
    cases hx : usb_match_id { devnum := devnum, idVendor := 0xffff, idProduct := 0xffff } pen_table
    · rfl
    · rw [hx] at this
      exact absurd (this.mp rfl) (by decide)
  refine ⟨key, ?_, hff, ?_⟩
  · rw [← key]
    unfold usb_device_inserted interface_to_usbdev
    cases usb_match_id { devnum := devnum, idVendor := v, idProduct := p } pen_table <;> rfl
  · unfold usb_device_inserted interface_to_usbdev
    simp only [hff]

end MyUSBdrive
